import Mathlib

/-!
Verification of the attendance-session core of the a-geo backend
(Django app `attendance`): session state machine, geofence decision
logic, QR-token issuance and validation, absence backfill, and the
auto-end scheduler pass.

Shallow embedding conventions:
- Database tables are modelled by their storage-level key structure:
  the Attendance table has a uniqueness constraint on
  (session, student), so it is modelled as a map
  `Nat -> Nat -> Option Attendance`; the Token table is a list of rows.
- Timestamps are integers (seconds); `scheduled_duration` and token
  TTLs are minutes, converted with `* 60` exactly where the source
  converts with `timedelta(minutes=...)`.
- Decimal coordinate and radius values are rationals.
- `calculate_distance` (views.py:51) is an IEEE-754 haversine
  computation; its numeric value is abstracted as a function parameter
  `calc`, since only the comparison of its result against the allowed
  radius drives control flow. The sentinel value `float(inf)` used by
  views.py:343 is modelled by the dedicated constructor `DistVal.inf`.
- The JWT library calls in token_utils.py are external to the
  repository; `jwt.decode` is modelled by an `Option Payload` input
  that is `none` exactly when the signature check raises.
- Python truthiness tests on numbers (`if latitude and longitude:` in
  models.py:271) are modelled as disequality with zero, which is exact
  for Decimal and float operands.
-/

namespace AGeo

/-- Session status choices of AttendanceSession (models.py:16). -/
inductive SessionStatus
  | active
  | ended
  | cancelled
deriving DecidableEq, Repr

/-- AttendanceSession row (models.py:12): course, teacher, classroom
location, allowed radius, timing and status fields used by the core. -/
structure Session where
  id : Nat
  courseId : Nat
  teacherId : Nat
  classroomLat : ℚ
  classroomLon : ℚ
  allowedRadius : ℚ
  startedAt : Int
  endedAt : Option Int
  scheduledDuration : Int
  status : SessionStatus
deriving DecidableEq, Repr

/-- AttendanceSession.is_active (models.py:148). -/
def Session.isActive (s : Session) : Bool :=
  decide (s.status = SessionStatus.active)

/-- Attendance status choices (models.py:180). -/
inductive AttStatus
  | present
  | absent
  | late
deriving DecidableEq, Repr

/-- A float distance value as stored by the views: either a finite
number or the positive-infinity sentinel from views.py:343. -/
inductive DistVal
  | fin (q : ℚ)
  | inf
deriving DecidableEq, Repr

/-- Reported distance: views.py:393 replaces infinity by -1 in the
response body. -/
def DistVal.toResponse : DistVal → ℚ
  | DistVal.fin q => q
  | DistVal.inf => -1

/-- Attendance row (models.py:176). -/
structure Attendance where
  sessionId : Nat
  studentId : Nat
  isPresent : Bool
  status : AttStatus
  studentLat : Option ℚ
  studentLon : Option ℚ
  locationVerified : Bool
  distanceFromClassroom : Option DistVal
  markedAt : Option Int
deriving DecidableEq, Repr

/-- The Attendance table keyed by its unique_together
(session, student) constraint (models.py:243). -/
def AttDB : Type := Nat → Nat → Option Attendance

/-- Write one row at its key. -/
def AttDB.put (db : AttDB) (a : Attendance) : AttDB :=
  fun sid stid =>
    if sid = a.sessionId ∧ stid = a.studentId then some a else db sid stid

/-- The empty Attendance table. -/
def emptyDB : AttDB := fun _ _ => none

/-- AttendanceToken row (models.py:290). -/
structure TokenRow where
  id : Nat
  sessionId : Nat
  tokenHash : Nat
  expiresAt : Int
  isActive : Bool
  usedCount : Nat
  maxUses : Nat
deriving DecidableEq, Repr

/-- AttendanceToken.is_expired (models.py:333). -/
def TokenRow.is_expired (t : TokenRow) (now : Int) : Bool :=
  decide (now > t.expiresAt)

/-- AttendanceToken.is_valid (models.py:338): active, not expired,
and under the use cap when max_uses is positive. -/
def TokenRow.is_valid (t : TokenRow) (now : Int) : Bool :=
  if t.isActive = false ∨ t.is_expired now = true then false
  else if t.maxUses > 0 ∧ t.usedCount ≥ t.maxUses then false
  else true

/-- Decoded JWT payload (token_utils.py:36); only the fields the core
reads are kept. -/
structure Payload where
  sessionId : Nat
  courseId : Nat
  teacherId : Nat
  issuedAt : Int
  expiresAt : Int
deriving DecidableEq, Repr

/-- generate_token (token_utils.py:20): persists a new row with the
requested TTL, active, zero uses and max_uses = 0 (unlimited), and
returns it. The fresh primary key and digest are inputs. -/
def generate_token (session : Session) (durationMinutes : Int) (now : Int)
    (newId newHash : Nat) (store : List TokenRow) : TokenRow × List TokenRow :=
  let row : TokenRow :=
    { id := newId
      sessionId := session.id
      tokenHash := newHash
      expiresAt := now + durationMinutes * 60
      isActive := true
      usedCount := 0
      maxUses := 0 }
  (row, store ++ [row])

/-- Digest lookup used by verify_token and refresh_token
(token_utils.py:168, token_utils.py:219). -/
def find_token (store : List TokenRow) (h : Nat) : Option TokenRow :=
  store.find? (fun t => decide (t.tokenHash = h))

/-- AttendanceToken.mark_used (models.py:349): increment used_count of
the row with the given primary key. -/
def mark_used (store : List TokenRow) (tid : Nat) : List TokenRow :=
  store.map (fun t =>
    if t.id = tid then { t with usedCount := t.usedCount + 1 } else t)

/-- Primary key of the digest-matched row, if any. -/
def matched_id (store : List TokenRow) (h : Nat) : Nat :=
  match find_token store h with
  | some t => t.id
  | none => 0

/-- verify_token (token_utils.py:150): decode the JWT (modelled by the
`decoded` input), look the digest up, reject an invalid row, otherwise
increment used_count and return the payload. -/
def verify_token (decoded : Option Payload) (h : Nat) (store : List TokenRow)
    (now : Int) : Option Payload × List TokenRow :=
  match decoded with
  | none => (none, store)
  | some payload =>
    match find_token store h with
    | none => (none, store)
    | some tok =>
      if tok.is_valid now = false then (none, store)
      else (some payload, mark_used store tok.id)

/-- deactivate_session_tokens (token_utils.py:191): deactivate every
active token of the session. Defined in the source but, as the claims
about session end show, never invoked from any end path. -/
def deactivate_session_tokens (store : List TokenRow) (sid : Nat) :
    List TokenRow :=
  store.map (fun t =>
    if t.sessionId = sid ∧ t.isActive = true then { t with isActive := false }
    else t)

/-- refresh_token (token_utils.py:203): deactivate the old token row if
its digest is supplied and found, then issue a new token with the
default 10 minute TTL. -/
def refresh_token (session : Session) (oldHash : Option Nat) (now : Int)
    (newId newHash : Nat) (store : List TokenRow) : TokenRow × List TokenRow :=
  let store1 :=
    match oldHash with
    | none => store
    | some h =>
      match find_token store h with
      | none => store
      | some t =>
        store.map (fun u =>
          if u.id = t.id then { u with isActive := false } else u)
  generate_token session 10 now newId newHash store1

/-- Spec-side validity condition, written from the section 3 invariant
of the spec: a token is valid iff
is_active and now <= expires_at and (max_uses = 0 or used_count < max_uses).
Compared against the implementation in the claim C6 theorem. -/
def token_ok (decoded : Option Payload) (h : Nat) (store : List TokenRow)
    (now : Int) : Bool :=
  decoded.isSome &&
    match find_token store h with
    | none => false
    | some t =>
      t.isActive && decide (now ≤ t.expiresAt) &&
        (decide (t.maxUses = 0) || decide (t.usedCount < t.maxUses))

/-! Attendance ledger -/

/-- Attendance.mark_attendance (models.py:265): set present status and
marked_at, and store location data only when both coordinates are
truthy, that is, nonzero. -/
def Attendance.mark_attendance (a : Attendance) (lat lon : ℚ) (lv : Bool)
    (d : DistVal) (now : Int) : Attendance :=
  let a1 := { a with
    isPresent := true
    status := AttStatus.present
    markedAt := some now }
  if lat ≠ 0 ∧ lon ≠ 0 then
    { a1 with
      studentLat := some lat
      studentLon := some lon
      locationVerified := lv
      distanceFromClassroom := some d }
  else a1

/-- Result of the mark_attendance endpoint (views.py:302); the ok case
carries the response fields location_verified, distance (with -1 for
infinity) and allowed_radius, plus the persisted record. -/
inductive MarkResult
  | notActive
  | notEnrolled
  | alreadyMarked
  | ok (locationVerified : Bool) (distanceResp : ℚ) (allowedRadius : ℚ)
      (record : Attendance)
deriving DecidableEq, Repr

/-- Projection: response location_verified of a successful marking. -/
def MarkResult.verifiedQ : MarkResult → Option Bool
  | MarkResult.ok lv _ _ _ => some lv
  | _ => none

/-- Projection: response distance of a successful marking. -/
def MarkResult.distQ : MarkResult → Option ℚ
  | MarkResult.ok _ d _ _ => some d
  | _ => none

/-- Projection: persisted record of a successful marking. -/
def MarkResult.recordQ : MarkResult → Option Attendance
  | MarkResult.ok _ _ _ r => some r
  | _ => none

/-- mark_attendance endpoint (views.py:302), location-based marking:
check the session is active and the student enrolled, special-case the
(0,0) sentinel to infinite distance and failed verification, otherwise
compare the computed distance with the allowed radius; reject when a
present record already exists; otherwise write the record, demoting it
to absent when the location was not verified. `distFn` stands for
calculate_distance (views.py:51). -/
def mark_attendance_view (distFn : ℚ → ℚ → ℚ → ℚ → ℚ) (session : Session)
    (enrolled : List Nat) (studentId : Nat) (lat lon : ℚ) (now : Int)
    (db : AttDB) : MarkResult × AttDB :=
  if session.isActive = false then (MarkResult.notActive, db)
  else if studentId ∉ enrolled then (MarkResult.notEnrolled, db)
  else
    let dv : DistVal × Bool :=
      if lat = 0 ∧ lon = 0 then (DistVal.inf, false)
      else
        let d := distFn session.classroomLat session.classroomLon lat lon
        (DistVal.fin d, decide (d ≤ session.allowedRadius))
    let distance := dv.1
    let locationVerified := dv.2
    match db session.id studentId with
    | some attendance =>
      if attendance.isPresent = true then (MarkResult.alreadyMarked, db)
      else
        let a1 := attendance.mark_attendance lat lon locationVerified distance now
        let a2 :=
          if locationVerified = true then { a1 with status := AttStatus.present }
          else { a1 with status := AttStatus.absent, isPresent := false }
        (MarkResult.ok locationVerified distance.toResponse
          session.allowedRadius a2, db.put a2)
    | none =>
      let defaults : Attendance :=
        { sessionId := session.id
          studentId := studentId
          isPresent := false
          status := AttStatus.absent
          studentLat := none
          studentLon := none
          locationVerified := false
          distanceFromClassroom := none
          markedAt := none }
      let a1 := defaults.mark_attendance lat lon locationVerified distance now
      let a2 :=
        if locationVerified = true then { a1 with status := AttStatus.present }
        else { a1 with status := AttStatus.absent, isPresent := false }
      (MarkResult.ok locationVerified distance.toResponse
        session.allowedRadius a2, (db.put defaults).put a2)

/-- Result of the verify_qr_token endpoint (views.py:819). -/
inductive QrResult
  | invalidToken
  | sessionNotFound
  | sessionNotActive
  | notEnrolled
  | ok (record : Attendance)
deriving DecidableEq, Repr

/-- Projection: persisted record of a successful token marking. -/
def QrResult.okRecord : QrResult → Option Attendance
  | QrResult.ok r => some r
  | _ => none

/-- verify_qr_token endpoint (views.py:819), token-based marking:
verify the token (incrementing its use count on success), fetch the
session from the payload, require it active and the student enrolled;
distance defaults to 0 and location_verified to true, refined only when
both coordinates are nonzero; then create the record as present, or
update an existing record to present. -/
def verify_qr_token_view (distFn : ℚ → ℚ → ℚ → ℚ → ℚ)
    (decoded : Option Payload) (h : Nat) (store : List TokenRow)
    (sessions : Nat → Option Session) (enrolled : List Nat)
    (studentId : Nat) (lat lon : ℚ) (now : Int) (db : AttDB) :
    QrResult × List TokenRow × AttDB :=
  match verify_token decoded h store now with
  | (none, _) => (QrResult.invalidToken, store, db)
  | (some payload, store1) =>
    match sessions payload.sessionId with
    | none => (QrResult.sessionNotFound, store1, db)
    | some session =>
      if session.isActive = false then (QrResult.sessionNotActive, store1, db)
      else if studentId ∉ enrolled then (QrResult.notEnrolled, store1, db)
      else
        let dv : ℚ × Bool :=
          if lat ≠ 0 ∧ lon ≠ 0 then
            let d := distFn session.classroomLat session.classroomLon lat lon
            (d, decide (d ≤ session.allowedRadius))
          else (0, true)
        let distance := dv.1
        let locationVerified := dv.2
        match db session.id studentId with
        | none =>
          let defaults : Attendance :=
            { sessionId := session.id
              studentId := studentId
              isPresent := true
              status := AttStatus.present
              studentLat := if lat ≠ 0 then some lat else none
              studentLon := if lon ≠ 0 then some lon else none
              locationVerified := locationVerified
              distanceFromClassroom :=
                if distance > 0 then some (DistVal.fin distance) else none
              markedAt := some now }
          (QrResult.ok defaults, store1, db.put defaults)
        | some a =>
          let a1 := { a with
            isPresent := true
            status := AttStatus.present
            locationVerified := locationVerified
            markedAt := some now }
          let a2 :=
            if lat ≠ 0 then { a1 with studentLat := some lat, studentLon := some lon }
            else a1
          let a3 :=
            if distance > 0 then
              { a2 with distanceFromClassroom := some (DistVal.fin distance) }
            else a2
          (QrResult.ok a3, store1, db.put a3)

/-! Session state machine and absence backfill -/

/-- Demote a record to absent, as the loop body of
mark_unmarked_students_as_absent does (models.py:143); every other
field, marked_at included, is left as it was. -/
def absentify (a : Attendance) : Attendance :=
  { a with isPresent := false, status := AttStatus.absent }

/-- The get_or_create defaults of the backfill (models.py:134): absent,
not present, marked_at null. -/
def freshAbsent (sid stid : Nat) : Attendance :=
  { sessionId := sid
    studentId := stid
    isPresent := false
    status := AttStatus.absent
    studentLat := none
    studentLon := none
    locationVerified := false
    distanceFromClassroom := none
    markedAt := none }

/-- One iteration of the backfill loop (models.py:127): get_or_create
the record, then demote it to absent unless it is present. -/
def backfill_one (sid stid : Nat) (db : AttDB) : AttDB :=
  match db sid stid with
  | none => db.put (absentify (freshAbsent sid stid))
  | some a => if a.isPresent = true then db else db.put (absentify a)

/-- Pointwise effect of one backfill iteration on the value stored at
the key it processes. -/
def backfill_result (sid stid : Nat) : Option Attendance → Option Attendance
  | none => some (freshAbsent sid stid)
  | some a => if a.isPresent = true then some a else some (absentify a)

/-- AttendanceSession.mark_unmarked_students_as_absent (models.py:117):
fold the backfill over the enrolled students of the course. -/
def mark_unmarked_students_as_absent (sid : Nat) (enrolled : List Nat)
    (db : AttDB) : AttDB :=
  enrolled.foldl (fun db stid => backfill_one sid stid db) db

/-- AttendanceSession.end_session (models.py:105): when the session is
active, set status to ended and ended_at to the current time, then run
the absence backfill; otherwise do nothing. -/
def Session.end_session (s : Session) (enrolled : List Nat) (db : AttDB)
    (now : Int) : Session × AttDB :=
  if s.status = SessionStatus.active then
    ({ s with status := SessionStatus.ended, endedAt := some now },
      mark_unmarked_students_as_absent s.id enrolled db)
  else (s, db)

/-- Result of the end_attendance_session endpoint (views.py:206). -/
inductive EndResult
  | notActive
  | ended
deriving DecidableEq, Repr

/-- Outcome of one call of the end endpoint. The token store is carried
through so that its (non-)mutation is part of the observable state;
backfillRuns is ghost instrumentation counting how many times the
absence backfill was invoked by the call. -/
structure EndOutcome where
  result : EndResult
  session : Session
  db : AttDB
  tokens : List TokenRow
  backfillRuns : Nat

/-- end_attendance_session endpoint (views.py:206): reject with the
Session-is-not-active error unless the status is active, otherwise run
end_session. No statement in this request path touches the token
store. -/
def end_attendance_session (s : Session) (enrolled : List Nat) (db : AttDB)
    (tokens : List TokenRow) (now : Int) : EndOutcome :=
  if s.status ≠ SessionStatus.active then
    { result := EndResult.notActive
      session := s
      db := db
      tokens := tokens
      backfillRuns := 0 }
  else
    let r := s.end_session enrolled db now
    { result := EndResult.ended
      session := r.1
      db := r.2
      tokens := tokens
      backfillRuns := 1 }

/-! Auto-end scheduler -/

/-- The scheduled end instant of a session
(auto_end_scheduler.py:41). -/
def scheduled_end_time (s : Session) : Int :=
  s.startedAt + s.scheduledDuration * 60

/-- Accumulated state of one scheduler pass. -/
structure SchedOutcome where
  sessions : List Session
  db : AttDB
  endedCount : Nat

/-- Body of the per-session loop of auto_end_expired_sessions
(auto_end_scheduler.py:38): end the session when now has reached its
scheduled end; the per-session try block means an exception while
ending one session (modelled by the `fails` predicate) is logged and
the loop continues with the next session. -/
def auto_end_step (now : Int) (fails : Nat → Bool)
    (enrolledOf : Nat → List Nat) (acc : SchedOutcome) (s : Session) :
    SchedOutcome :=
  if now ≥ scheduled_end_time s then
    if fails s.id = true then
      { acc with sessions := acc.sessions ++ [s] }
    else
      let r := s.end_session (enrolledOf s.courseId) acc.db now
      { sessions := acc.sessions ++ [r.1]
        db := r.2
        endedCount := acc.endedCount + 1 }
  else { acc with sessions := acc.sessions ++ [s] }

/-- auto_end_expired_sessions (auto_end_scheduler.py:16): query the
active sessions and run the loop over them. -/
def auto_end_expired_sessions (now : Int) (fails : Nat → Bool)
    (enrolledOf : Nat → List Nat) (sessions : List Session) (db : AttDB) :
    SchedOutcome :=
  (sessions.filter (fun s => s.isActive)).foldl
    (auto_end_step now fails enrolledOf)
    { sessions := [], db := db, endedCount := 0 }

/-- The fate of one session in a scheduler pass, as a pure function of
the session itself: ended exactly when it is past due, still active and
its end does not raise. -/
def sched_fate (now : Int) (fails : Nat → Bool) (s : Session) : Session :=
  if now ≥ scheduled_end_time s ∧ fails s.id = false then
    (if s.status = SessionStatus.active
      then { s with status := SessionStatus.ended, endedAt := some now }
      else s)
  else s

/-! Concrete fixtures used by counterexamples and witnesses -/

/-- Storage consistency of the Attendance table: a stored row carries
the key it is stored under, which the database guarantees because the
row key fields are set from the get_or_create query and never
modified. -/
def WFdb (db : AttDB) : Prop :=
  ∀ sid stid a, db sid stid = some a → a.sessionId = sid ∧ a.studentId = stid

/-- An active session: classroom at (10,10), radius 50 m, 60 min. -/
def exSession : Session :=
  { id := 1
    courseId := 3
    teacherId := 2
    classroomLat := 10
    classroomLon := 10
    allowedRadius := 50
    startedAt := 0
    endedAt := none
    scheduledDuration := 60
    status := SessionStatus.active }

/-- Session table with only exSession. -/
def exSessions : Nat → Option Session :=
  fun n => if n = 1 then some exSession else none

/-- An active, unexpired, unlimited-use token of exSession. -/
def exToken : TokenRow :=
  { id := 5
    sessionId := 1
    tokenHash := 99
    expiresAt := 10000
    isActive := true
    usedCount := 0
    maxUses := 0 }

/-- The decoded payload of exToken. -/
def exPayload : Payload :=
  { sessionId := 1
    courseId := 3
    teacherId := 2
    issuedAt := 0
    expiresAt := 10000 }

/-- A stand-in for calculate_distance whose value is the (out of
radius) haversine distance between (10,10) and (0,10), about 1106
km. -/
def exDistFn : ℚ → ℚ → ℚ → ℚ → ℚ := fun _ _ _ _ => 1106000

/-- A record of student 7 already marked present in exSession. -/
def exPresentRec : Attendance :=
  { sessionId := 1
    studentId := 7
    isPresent := true
    status := AttStatus.present
    studentLat := some 10
    studentLon := some 10
    locationVerified := true
    distanceFromClassroom := some (DistVal.fin 5)
    markedAt := some 50 }

/-- Attendance table holding only exPresentRec. -/
def exPresentDB : AttDB :=
  fun sid stid => if sid = 1 ∧ stid = 7 then some exPresentRec else none

/-- A record of student 7 written absent after a failed location
attempt: is_present false but marked_at set (views.py:374 sets
marked_at before views.py:385 demotes the record). -/
def exAbsentRec : Attendance :=
  { sessionId := 1
    studentId := 7
    isPresent := false
    status := AttStatus.absent
    studentLat := some 10
    studentLon := some 11
    locationVerified := false
    distanceFromClassroom := some (DistVal.fin 90000)
    markedAt := some 50 }

/-- Attendance table holding only exAbsentRec. -/
def exAbsentDB : AttDB :=
  fun sid stid => if sid = 1 ∧ stid = 7 then some exAbsentRec else none

/-- The record written by the location endpoint for a submission at
(0,10): present flags demoted to absent, and the location fields
dropped by the truthiness test on latitude. -/
def exZeroLatRec : Attendance :=
  { sessionId := 1
    studentId := 7
    isPresent := false
    status := AttStatus.absent
    studentLat := none
    studentLon := none
    locationVerified := false
    distanceFromClassroom := none
    markedAt := some 100 }

/-! Helper lemmas -/

/-- The implementation of AttendanceToken.is_valid agrees with the
section 3 invariant of the spec, as one boolean expression. -/
theorem is_valid_spec (t : TokenRow) (now : Int) :
    t.is_valid now
      = (t.isActive && decide (now ≤ t.expiresAt) &&
          (decide (t.maxUses = 0) || decide (t.usedCount < t.maxUses))) := by
  unfold TokenRow.is_valid TokenRow.is_expired
  by_cases ha : t.isActive = false
  · simp [ha]
  · have ha2 : t.isActive = true := by revert ha; cases t.isActive <;> simp
    by_cases he : now ≤ t.expiresAt
    · have hne : ¬ now > t.expiresAt := by omega
      by_cases hc : t.maxUses > 0 ∧ t.usedCount ≥ t.maxUses
      · have h1 : ¬ t.maxUses = 0 := by omega
        have h2 : ¬ t.usedCount < t.maxUses := by omega
        simp [ha2, he, hne, hc, h1, h2]
      · rw [Decidable.not_and_iff_or_not] at hc
        rcases hc with hc | hc
        · have h0 : t.maxUses = 0 := by omega
          simp [ha2, he, hne, h0]
        · have hlt : t.usedCount < t.maxUses := by omega
          have h3 : ¬ (t.maxUses > 0 ∧ t.usedCount ≥ t.maxUses) := by omega
          simp [ha2, he, hne, h3, hlt]
    · have hgt : now > t.expiresAt := by omega
      simp [ha2, hgt, he]

/-- Claim C6: verify succeeds and returns the decoded payload exactly
when the signature is valid (decoded is some), the digest has a stored
row, and that row is valid per the invariant
is_active and now <= expires_at and (max_uses = 0 or used_count < max_uses)
(spelled out by token_ok); on success exactly the matched row has its
used_count incremented by one and every other row and field is
unchanged, and on any failure the store is returned unchanged. -/
theorem token_verify_c6 (decoded : Option Payload) (h : Nat)
    (store : List TokenRow) (now : Int) (i : Nat) :
    (verify_token decoded h store now).1
      = (if token_ok decoded h store now = true then decoded else none)
    ∧ (verify_token decoded h store now).2.length = store.length
    ∧ (verify_token decoded h store now).2.get? i
        = (store.get? i).map (fun u =>
            if token_ok decoded h store now = true ∧ u.id = matched_id store h
            then { u with usedCount := u.usedCount + 1 } else u) := by
  have hok : token_ok decoded h store now
      = (decoded.isSome &&
          (match find_token store h with
           | none => false
           | some t => t.is_valid now)) := by
    unfold token_ok
    cases find_token store h with
    | none => simp
    | some t => simp [is_valid_spec]
  cases decoded with
  | none =>
    have h0 : token_ok none h store now = false := by rw [hok]; simp
    simp [verify_token, h0]
  | some p =>
    cases hf : find_token store h with
    | none =>
      have h0 : token_ok (some p) h store now = false := by
        rw [hok, hf]; simp
      simp [verify_token, hf, h0]
    | some tok =>
      by_cases hv : tok.is_valid now = true
      · have h1 : token_ok (some p) h store now = true := by
          rw [hok, hf]; simp [hv]
        refine ⟨by simp [verify_token, hf, hv, h1], ?_, ?_⟩
        · simp [verify_token, hf, hv, mark_used]
        · simp [verify_token, hf, hv, h1, matched_id, mark_used,
            List.get?_map]
      · have hv2 : tok.is_valid now = false := by
          revert hv; cases tok.is_valid now <;> simp
        have h0 : token_ok (some p) h store now = false := by
          rw [hok, hf]; simp [hv2]
        simp [verify_token, hf, hv2, h0]

/-- Claim C10: a token row created by generate_token, and hence by
refresh_token, has max_uses = 0 (unlimited), and for a row with
max_uses = 0 validity degenerates to is_active and not expired: the
use cap clause can never reject it. -/
theorem token_issuance_c10 (session : Session) (durationMinutes now : Int)
    (newId newHash : Nat) (store : List TokenRow) (oldHash : Option Nat)
    (t : TokenRow) (hm : t.maxUses = 0) :
    (generate_token session durationMinutes now newId newHash store).1.maxUses = 0
    ∧ (refresh_token session oldHash now newId newHash store).1.maxUses = 0
    ∧ t.is_valid now = (t.isActive && decide (now ≤ t.expiresAt)) := by
  refine ⟨rfl, rfl, ?_⟩
  rw [is_valid_spec, hm]
  simp

/-- Witness for claim C10, at the fixture token and an empty store. -/
theorem token_issuance_c10_witness :
    exToken.maxUses = 0
    ∧ ((generate_token exSession 10 0 5 99 []).1.maxUses = 0
      ∧ (refresh_token exSession none 0 6 98 []).1.maxUses = 0
      ∧ exToken.is_valid 100
          = (exToken.isActive && decide ((100:Int) ≤ exToken.expiresAt))) :=
  ⟨by decide, token_issuance_c10 exSession 10 0 5 99 [] none exToken (by decide)⟩

/-- Claim C4: token-based marking with a successfully verified token on
an active session by an enrolled student always writes the record with
status present and is_present true, for every choice of submitted
coordinates (including none, encoded 0) and every distance function, so
coordinates never gate presence on this path. -/
theorem qr_mark_c4 (distFn : ℚ → ℚ → ℚ → ℚ → ℚ) (decoded : Option Payload)
    (h : Nat) (store : List TokenRow) (sessions : Nat → Option Session)
    (enrolled : List Nat) (studentId : Nat) (lat lon : ℚ) (now : Int)
    (db : AttDB) (p : Payload) (t : TokenRow) (session : Session)
    (hd : decoded = some p) (hf : find_token store h = some t)
    (hv : t.is_valid now = true) (hs : sessions p.sessionId = some session)
    (ha : session.isActive = true) (he : studentId ∈ enrolled) :
    ((verify_qr_token_view distFn decoded h store sessions enrolled studentId
        lat lon now db).1.okRecord.map Attendance.isPresent = some true)
    ∧ ((verify_qr_token_view distFn decoded h store sessions enrolled studentId
        lat lon now db).1.okRecord.map Attendance.status
        = some AttStatus.present) := by
  subst hd
  simp only [verify_qr_token_view, verify_token, hf, hv, hs, ha, he,
    Bool.true_eq_false, if_false, not_true_eq_false, reduceIte,
    not_false_eq_true, if_true]
  cases hdb : db session.id studentId with
  | none => simp [QrResult.okRecord]
  | some a =>
    constructor <;>
      (simp [QrResult.okRecord]
       split_ifs <;> rfl)

/-- Witness for claim C4: student 7 marks by token in exSession with
coordinates (3,4). -/
theorem qr_mark_c4_witness :
    (some exPayload = some exPayload
      ∧ find_token [exToken] 99 = some exToken
      ∧ exToken.is_valid 100 = true
      ∧ exSessions exPayload.sessionId = some exSession
      ∧ exSession.isActive = true
      ∧ 7 ∈ [7])
    ∧ (((verify_qr_token_view exDistFn (some exPayload) 99 [exToken]
          exSessions [7] 7 3 4 100 emptyDB).1.okRecord.map
          Attendance.isPresent = some true)
      ∧ ((verify_qr_token_view exDistFn (some exPayload) 99 [exToken]
          exSessions [7] 7 3 4 100 emptyDB).1.okRecord.map
          Attendance.status = some AttStatus.present)) :=
  ⟨⟨rfl, by decide, by decide, by decide, by decide, by decide⟩,
    qr_mark_c4 exDistFn (some exPayload) 99 [exToken] exSessions [7] 7 3 4 100
      emptyDB exPayload exToken exSession rfl (by decide) (by decide)
      (by decide) (by decide) (by decide)⟩

/-- Counterexample to claim C2 as stated: token-based marking with
coordinates exactly (0,0) does not yield location_verified false; the
record is written with location_verified true (and no stored distance),
because the token path treats zero coordinates as location absent and
defaults location_verified to true. -/
theorem sentinel_c2_counterexample :
    ((verify_qr_token_view exDistFn (some exPayload) 99 [exToken] exSessions
        [7] 7 0 0 100 emptyDB).1.okRecord.map Attendance.locationVerified
      = some true)
    ∧ ((verify_qr_token_view exDistFn (some exPayload) 99 [exToken] exSessions
        [7] 7 0 0 100 emptyDB).1.okRecord.map Attendance.distanceFromClassroom
      = some none) := by decide

/-- Claim C2 as amended: in location-based marking a (0,0) submission
always yields location_verified false with the distance set to the
infinity sentinel and reported as -1, and the record is written absent;
in token-based marking a (0,0) submission is instead treated as no
location supplied, and the record is written with location_verified
true. -/
theorem sentinel_c2 (distFn : ℚ → ℚ → ℚ → ℚ → ℚ) (session : Session)
    (enrolled : List Nat) (studentId : Nat) (now : Int) (db : AttDB)
    (decoded : Option Payload) (h : Nat) (store : List TokenRow)
    (sessions : Nat → Option Session) (p : Payload) (t : TokenRow)
    (ha : session.isActive = true) (he : studentId ∈ enrolled)
    (habs : ((db session.id studentId).all fun a => !a.isPresent) = true)
    (hd : decoded = some p) (hf : find_token store h = some t)
    (hv : t.is_valid now = true) (hs : sessions p.sessionId = some session) :
    ((mark_attendance_view distFn session enrolled studentId 0 0 now
        db).1.verifiedQ = some false)
    ∧ ((mark_attendance_view distFn session enrolled studentId 0 0 now
        db).1.distQ = some (-1))
    ∧ ((mark_attendance_view distFn session enrolled studentId 0 0 now
        db).1.recordQ.map Attendance.isPresent = some false)
    ∧ ((mark_attendance_view distFn session enrolled studentId 0 0 now
        db).1.recordQ.map Attendance.status = some AttStatus.absent)
    ∧ ((verify_qr_token_view distFn decoded h store sessions enrolled
        studentId 0 0 now db).1.okRecord.map Attendance.locationVerified
      = some true)
    ∧ ((verify_qr_token_view distFn decoded h store sessions enrolled
        studentId 0 0 now db).1.okRecord.map Attendance.isPresent
      = some true) := by
  subst hd
  cases hdb : db session.id studentId with
  | none =>
    simp [mark_attendance_view, ha, he, hdb, MarkResult.verifiedQ,
      MarkResult.distQ, MarkResult.recordQ, Attendance.mark_attendance,
      DistVal.toResponse, verify_qr_token_view, verify_token, hf, hv, hs,
      QrResult.okRecord]
  | some a =>
    have hnp : a.isPresent = false := by
      have := habs
      rw [hdb] at this
      simpa using this
    simp [mark_attendance_view, ha, he, hdb, hnp, MarkResult.verifiedQ,
      MarkResult.distQ, MarkResult.recordQ, Attendance.mark_attendance,
      DistVal.toResponse, verify_qr_token_view, verify_token, hf, hv, hs,
      QrResult.okRecord]

/-- Witness for the amended claim C2: student 7, empty table. -/
theorem sentinel_c2_witness :
    (exSession.isActive = true ∧ 7 ∈ [7]
      ∧ ((emptyDB exSession.id 7).all fun a => !a.isPresent) = true
      ∧ find_token [exToken] 99 = some exToken
      ∧ exToken.is_valid 100 = true
      ∧ exSessions exPayload.sessionId = some exSession)
    ∧ (((mark_attendance_view exDistFn exSession [7] 7 0 0 100
          emptyDB).1.verifiedQ = some false)
      ∧ ((mark_attendance_view exDistFn exSession [7] 7 0 0 100
          emptyDB).1.distQ = some (-1))
      ∧ ((mark_attendance_view exDistFn exSession [7] 7 0 0 100
          emptyDB).1.recordQ.map Attendance.isPresent = some false)
      ∧ ((mark_attendance_view exDistFn exSession [7] 7 0 0 100
          emptyDB).1.recordQ.map Attendance.status = some AttStatus.absent)
      ∧ ((verify_qr_token_view exDistFn (some exPayload) 99 [exToken]
          exSessions [7] 7 0 0 100 emptyDB).1.okRecord.map
          Attendance.locationVerified = some true)
      ∧ ((verify_qr_token_view exDistFn (some exPayload) 99 [exToken]
          exSessions [7] 7 0 0 100 emptyDB).1.okRecord.map
          Attendance.isPresent = some true)) :=
  ⟨⟨by decide, by decide, by decide, by decide, by decide, by decide⟩,
    sentinel_c2 exDistFn exSession [7] 7 100 emptyDB (some exPayload) 99
      [exToken] exSessions exPayload exToken (by decide) (by decide)
      (by decide) rfl (by decide) (by decide) (by decide)⟩

/-- Counterexample to claim C3 as stated: with a record already marked
present (marked_at 50), a token-based marking attempt is not rejected
with AlreadyMarked; it succeeds and mutates the record, moving
marked_at to the new time 100. -/
theorem already_marked_c3_counterexample :
    ((verify_qr_token_view exDistFn (some exPayload) 99 [exToken] exSessions
        [7] 7 0 0 100 exPresentDB).1.okRecord.map Attendance.markedAt
      = some (some 100))
    ∧ exPresentRec.markedAt = some 50 := by decide

/-- Claim C3 as amended: once a record with is_present true exists,
a further location-based attempt is rejected with AlreadyMarked and the
table is returned unchanged, but a token-based attempt with a valid
token is not rejected: it re-marks the record, setting marked_at to the
new time. -/
theorem already_marked_c3 (distFn : ℚ → ℚ → ℚ → ℚ → ℚ) (session : Session)
    (enrolled : List Nat) (studentId : Nat) (lat lon : ℚ) (now : Int)
    (db : AttDB) (a : Attendance) (decoded : Option Payload) (h : Nat)
    (store : List TokenRow) (sessions : Nat → Option Session) (p : Payload)
    (t : TokenRow)
    (ha : session.isActive = true) (he : studentId ∈ enrolled)
    (hdb : db session.id studentId = some a) (hp : a.isPresent = true)
    (hd : decoded = some p) (hf : find_token store h = some t)
    (hv : t.is_valid now = true) (hs : sessions p.sessionId = some session) :
    mark_attendance_view distFn session enrolled studentId lat lon now db
      = (MarkResult.alreadyMarked, db)
    ∧ ((verify_qr_token_view distFn decoded h store sessions enrolled
        studentId lat lon now db).1.okRecord.map Attendance.markedAt
      = some (some now)) := by
  subst hd
  constructor
  · simp [mark_attendance_view, ha, he, hdb, hp]
  · simp only [verify_qr_token_view, verify_token, hf, hv, hs, ha, he,
      Bool.true_eq_false, reduceIte, not_false_eq_true, not_true_eq_false]
    simp [hdb, QrResult.okRecord]
    split_ifs <;> rfl

/-- Witness for the amended claim C3: the fixture present record. -/
theorem already_marked_c3_witness :
    (exSession.isActive = true ∧ 7 ∈ [7]
      ∧ exPresentDB exSession.id 7 = some exPresentRec
      ∧ exPresentRec.isPresent = true
      ∧ find_token [exToken] 99 = some exToken
      ∧ exToken.is_valid 100 = true
      ∧ exSessions exPayload.sessionId = some exSession)
    ∧ (mark_attendance_view exDistFn exSession [7] 7 3 4 100 exPresentDB
        = (MarkResult.alreadyMarked, exPresentDB)
      ∧ ((verify_qr_token_view exDistFn (some exPayload) 99 [exToken]
          exSessions [7] 7 3 4 100 exPresentDB).1.okRecord.map
          Attendance.markedAt = some (some 100))) :=
  ⟨⟨by decide, by decide, by decide, by decide, by decide, by decide,
      by decide⟩,
    already_marked_c3 exDistFn exSession [7] 7 3 4 100 exPresentDB
      exPresentRec (some exPayload) 99 [exToken] exSessions exPayload exToken
      (by decide) (by decide) (by decide) (by decide) rfl (by decide)
      (by decide) (by decide)⟩

/-- Claim C5, evaluated at the failing input: classroom (10,10) with
radius 50, submission at (0,10) on the equator (not the (0,0)
sentinel), haversine distance about 1106 km. The decision and response
are correct (not verified, distance reported, record written absent),
but the truthiness test on the latitude drops the submitted
coordinates, the stored location_verified flag and the computed
distance from the persisted record, so the audit data the claim and
spec require is not retained. -/
theorem location_mark_c5_code_bug :
    (mark_attendance_view exDistFn exSession [7] 7 0 10 100 emptyDB).1
      = MarkResult.ok false 1106000 50 exZeroLatRec
    ∧ exZeroLatRec.studentLat = none
    ∧ exZeroLatRec.studentLon = none
    ∧ exZeroLatRec.distanceFromClassroom = none
    ∧ exZeroLatRec.locationVerified = false
    ∧ exZeroLatRec.isPresent = false := by decide

/-- Counterexample to claim C1 as stated: ending the active fixture
session succeeds, yet its active, unexpired token is returned untouched
by the end request and still verifies afterwards (verify_token still
returns the payload at a later time against the post-end store), so it
is not true that after a successful end no token of the session is
still active. -/
theorem end_revoke_c1_counterexample :
    (end_attendance_session exSession [7] emptyDB [exToken] 100).result
      = EndResult.ended
    ∧ (end_attendance_session exSession [7] emptyDB [exToken] 100).tokens
      = [exToken]
    ∧ exToken.sessionId = exSession.id
    ∧ exToken.isActive = true
    ∧ (verify_token (some exPayload) 99
        (end_attendance_session exSession [7] emptyDB [exToken] 100).tokens
        200).1 = some exPayload := by
  refine ⟨rfl, rfl, rfl, rfl, by decide⟩

/-- Claim C1 as amended: when end succeeds on an active session it
performs three of the four side effects, setting status to ended,
setting ended_at to the current time and running the absence backfill,
but it performs no token revocation: the end request path never calls
deactivate_session_tokens, so the token store is returned exactly as it
was and any active token of the session remains active in it. -/
theorem end_revoke_c1 (s : Session) (enrolled : List Nat) (db : AttDB)
    (tokens : List TokenRow) (now : Int) (t : TokenRow)
    (h : s.status = SessionStatus.active) (ht : t ∈ tokens)
    (hta : t.isActive = true) :
    end_attendance_session s enrolled db tokens now
      = { result := EndResult.ended
          session := { s with status := SessionStatus.ended, endedAt := some now }
          db := mark_unmarked_students_as_absent s.id enrolled db
          tokens := tokens
          backfillRuns := 1 }
    ∧ t ∈ (end_attendance_session s enrolled db tokens now).tokens
    ∧ t.isActive = true := by
  refine ⟨?_, ?_, hta⟩
  · simp [end_attendance_session, Session.end_session, h]
  · simp [end_attendance_session, Session.end_session, h, ht]

/-- Witness for the amended claim C1, at the fixture session and
token. -/
theorem end_revoke_c1_witness :
    (exSession.status = SessionStatus.active ∧ exToken ∈ [exToken]
      ∧ exToken.isActive = true)
    ∧ (end_attendance_session exSession [7] emptyDB [exToken] 100
        = { result := EndResult.ended
            session := { exSession with status := SessionStatus.ended, endedAt := some 100 }
            db := mark_unmarked_students_as_absent exSession.id [7] emptyDB
            tokens := [exToken]
            backfillRuns := 1 }
      ∧ exToken ∈ (end_attendance_session exSession [7] emptyDB [exToken]
          100).tokens
      ∧ exToken.isActive = true) :=
  ⟨⟨by decide, by decide, by decide⟩,
    end_revoke_c1 exSession [7] emptyDB [exToken] 100 exToken (by decide)
      (by decide) (by decide)⟩

/-- Claim C7: ending twice yields exactly one transition to ended (with
ended_at set by the first call) and a NotActive error on the second
call, which changes nothing; the backfill runs exactly once across the
two calls; and neither the end endpoint nor end_session moves a session
that is not active (ended or cancelled) anywhere, in particular never
back to active. -/
theorem end_idempotent_c7 (s s2 : Session) (enrolled : List Nat) (db : AttDB)
    (tokens : List TokenRow) (now1 now2 : Int)
    (h : s.status = SessionStatus.active)
    (h2 : s2.status ≠ SessionStatus.active) :
    (end_attendance_session s enrolled db tokens now1).result
      = EndResult.ended
    ∧ (end_attendance_session s enrolled db tokens now1).session.status
      = SessionStatus.ended
    ∧ (end_attendance_session s enrolled db tokens now1).session.endedAt
      = some now1
    ∧ (end_attendance_session
        (end_attendance_session s enrolled db tokens now1).session enrolled
        (end_attendance_session s enrolled db tokens now1).db
        (end_attendance_session s enrolled db tokens now1).tokens
        now2).result = EndResult.notActive
    ∧ (end_attendance_session
        (end_attendance_session s enrolled db tokens now1).session enrolled
        (end_attendance_session s enrolled db tokens now1).db
        (end_attendance_session s enrolled db tokens now1).tokens
        now2).session
      = (end_attendance_session s enrolled db tokens now1).session
    ∧ (end_attendance_session
        (end_attendance_session s enrolled db tokens now1).session enrolled
        (end_attendance_session s enrolled db tokens now1).db
        (end_attendance_session s enrolled db tokens now1).tokens
        now2).db
      = (end_attendance_session s enrolled db tokens now1).db
    ∧ (end_attendance_session s enrolled db tokens now1).backfillRuns
        + (end_attendance_session
            (end_attendance_session s enrolled db tokens now1).session
            enrolled
            (end_attendance_session s enrolled db tokens now1).db
            (end_attendance_session s enrolled db tokens now1).tokens
            now2).backfillRuns = 1
    ∧ (end_attendance_session s2 enrolled db tokens now2).session = s2
    ∧ (end_attendance_session s2 enrolled db tokens now2).db = db
    ∧ (end_attendance_session s2 enrolled db tokens now2).result
      = EndResult.notActive
    ∧ (s2.end_session enrolled db now2).1 = s2
    ∧ (s2.end_session enrolled db now2).2 = db := by
  have h1 : end_attendance_session s enrolled db tokens now1
      = { result := EndResult.ended
          session := { s with status := SessionStatus.ended, endedAt := some now1 }
          db := mark_unmarked_students_as_absent s.id enrolled db
          tokens := tokens
          backfillRuns := 1 } := by
    simp [end_attendance_session, Session.end_session, h]
  rw [h1]
  refine ⟨rfl, rfl, rfl, rfl, rfl, rfl, rfl, ?_, ?_, ?_, ?_, ?_⟩ <;>
    simp [end_attendance_session, Session.end_session, h2]

/-- Witness for claim C7: the fixture session ended at 100 and again at
200, and an already-cancelled copy of it. -/
theorem end_idempotent_c7_witness :
    (exSession.status = SessionStatus.active
      ∧ { exSession with status := SessionStatus.cancelled }.status
          ≠ SessionStatus.active)
    ∧ ((end_attendance_session exSession [7] emptyDB [exToken] 100).result
        = EndResult.ended
      ∧ (end_attendance_session exSession [7] emptyDB [exToken]
          100).session.status = SessionStatus.ended
      ∧ (end_attendance_session exSession [7] emptyDB [exToken]
          100).session.endedAt = some 100
      ∧ (end_attendance_session
          (end_attendance_session exSession [7] emptyDB [exToken] 100).session
          [7] (end_attendance_session exSession [7] emptyDB [exToken] 100).db
          (end_attendance_session exSession [7] emptyDB [exToken] 100).tokens
          200).result = EndResult.notActive
      ∧ (end_attendance_session
          (end_attendance_session exSession [7] emptyDB [exToken] 100).session
          [7] (end_attendance_session exSession [7] emptyDB [exToken] 100).db
          (end_attendance_session exSession [7] emptyDB [exToken] 100).tokens
          200).session
        = (end_attendance_session exSession [7] emptyDB [exToken] 100).session
      ∧ (end_attendance_session
          (end_attendance_session exSession [7] emptyDB [exToken] 100).session
          [7] (end_attendance_session exSession [7] emptyDB [exToken] 100).db
          (end_attendance_session exSession [7] emptyDB [exToken] 100).tokens
          200).db
        = (end_attendance_session exSession [7] emptyDB [exToken] 100).db
      ∧ (end_attendance_session exSession [7] emptyDB [exToken]
          100).backfillRuns
          + (end_attendance_session
              (end_attendance_session exSession [7] emptyDB [exToken]
                100).session
              [7]
              (end_attendance_session exSession [7] emptyDB [exToken] 100).db
              (end_attendance_session exSession [7] emptyDB [exToken]
                100).tokens
              200).backfillRuns = 1
      ∧ (end_attendance_session
          { exSession with status := SessionStatus.cancelled } [7] emptyDB
          [exToken] 200).session
        = { exSession with status := SessionStatus.cancelled }
      ∧ (end_attendance_session
          { exSession with status := SessionStatus.cancelled } [7] emptyDB
          [exToken] 200).db = emptyDB
      ∧ (end_attendance_session
          { exSession with status := SessionStatus.cancelled } [7] emptyDB
          [exToken] 200).result = EndResult.notActive
      ∧ ({ exSession with
            status := SessionStatus.cancelled }.end_session [7] emptyDB
          200).1 = { exSession with status := SessionStatus.cancelled }
      ∧ ({ exSession with
            status := SessionStatus.cancelled }.end_session [7] emptyDB
          200).2 = emptyDB) :=
  ⟨⟨by decide, by decide⟩,
    end_idempotent_c7 exSession
      { exSession with status := SessionStatus.cancelled } [7] emptyDB
      [exToken] 100 200 (by decide) (by decide)⟩

/-- Writing a row keeps the table consistent with its keys. -/
theorem wf_put (db : AttDB) (hw : WFdb db) (a : Attendance) :
    WFdb (db.put a) := by
  intro sid stid b hb
  unfold AttDB.put at hb
  by_cases hc : sid = a.sessionId ∧ stid = a.studentId
  · rw [if_pos hc] at hb
    cases hb
    exact ⟨hc.1.symm, hc.2.symm⟩
  · rw [if_neg hc] at hb
    exact hw sid stid b hb

/-- One backfill iteration keeps the table consistent with its keys. -/
theorem wf_backfill_one (sid e : Nat) (db : AttDB) (hw : WFdb db) :
    WFdb (backfill_one sid e db) := by
  unfold backfill_one
  cases hdb : db sid e with
  | none => exact wf_put db hw _
  | some a =>
    show WFdb (if a.isPresent = true then db else db.put (absentify a))
    by_cases hp : a.isPresent = true
    · rw [if_pos hp]; exact hw
    · rw [if_neg hp]; exact wf_put db hw _

/-- The whole backfill keeps the table consistent with its keys. -/
theorem wf_mark_unmarked (sid : Nat) (E : List Nat) (db : AttDB)
    (hw : WFdb db) : WFdb (mark_unmarked_students_as_absent sid E db) := by
  induction E generalizing db with
  | nil => exact hw
  | cons e E ih => exact ih (backfill_one sid e db) (wf_backfill_one sid e db hw)

/-- Pointwise description of one backfill iteration. -/
theorem backfill_one_lookup (sid e : Nat) (db : AttDB) (hw : WFdb db)
    (x y : Nat) :
    backfill_one sid e db x y
      = if x = sid ∧ y = e then backfill_result sid e (db sid e)
        else db x y := by
  unfold backfill_one backfill_result
  cases hdb : db sid e with
  | none =>
    show (db.put (absentify (freshAbsent sid e))) x y
        = if x = sid ∧ y = e then some (freshAbsent sid e) else db x y
    by_cases hxy : x = sid ∧ y = e
    · rw [if_pos hxy]
      simp [AttDB.put, absentify, freshAbsent, hxy.1, hxy.2]
    · rw [if_neg hxy]
      simp only [AttDB.put, absentify, freshAbsent]
      rw [if_neg (fun hc => hxy ⟨hc.1, hc.2⟩)]
  | some a =>
    obtain ⟨hks, hkt⟩ := hw sid e a hdb
    show (if a.isPresent = true then db else db.put (absentify a)) x y
        = if x = sid ∧ y = e
          then (if a.isPresent = true then some a else some (absentify a))
          else db x y
    by_cases hp : a.isPresent = true
    · simp only [if_pos hp]
      by_cases hxy : x = sid ∧ y = e
      · rw [if_pos hxy]
        obtain ⟨hx, hy⟩ := hxy
        subst hx; subst hy
        exact hdb
      · rw [if_neg hxy]
    · simp only [if_neg hp]
      by_cases hxy : x = sid ∧ y = e
      · rw [if_pos hxy]
        simp [AttDB.put, absentify, hks, hkt, hxy.1, hxy.2]
      · rw [if_neg hxy]
        simp only [AttDB.put, absentify]
        rw [if_neg (fun hc => hxy (by
          constructor
          · rw [← hks]; exact hc.1
          · rw [← hkt]; exact hc.2))]

/-- The pointwise backfill effect is idempotent. -/
theorem backfill_result_idem (sid stid : Nat) (o : Option Attendance) :
    backfill_result sid stid (backfill_result sid stid o)
      = backfill_result sid stid o := by
  cases o with
  | none => rfl
  | some a =>
    by_cases hp : a.isPresent = true
    · simp [backfill_result, hp]
    · have hp2 : a.isPresent = false := by
        revert hp; cases a.isPresent <;> simp
      simp [backfill_result, hp2, absentify]

/-- Pointwise description of the whole backfill: keys of enrolled
students of this session get the backfill effect, every other key is
untouched. -/
theorem mark_unmarked_lookup (sid : Nat) (E : List Nat) (db : AttDB)
    (hw : WFdb db) (x y : Nat) :
    mark_unmarked_students_as_absent sid E db x y
      = if x = sid ∧ y ∈ E then backfill_result sid y (db x y)
        else db x y := by
  induction E generalizing db with
  | nil => simp [mark_unmarked_students_as_absent]
  | cons e E ih =>
    have step : mark_unmarked_students_as_absent sid (e :: E) db
        = mark_unmarked_students_as_absent sid E (backfill_one sid e db) := rfl
    rw [step, ih (backfill_one sid e db) (wf_backfill_one sid e db hw),
      backfill_one_lookup sid e db hw x y]
    by_cases hx : x = sid
    · subst hx
      by_cases hye : y = e
      · subst hye
        by_cases hyE : y ∈ E
        · simp [hyE, backfill_result_idem]
        · simp [hyE]
      · by_cases hyE : y ∈ E
        · simp [hye, hyE]
        · simp [hye, hyE]
    · simp [hx]

/-- The fixture table with one absent record is key consistent. -/
theorem wf_exAbsentDB : WFdb exAbsentDB := by
  intro sid stid a h
  unfold exAbsentDB at h
  by_cases hc : sid = 1 ∧ stid = 7
  · rw [if_pos hc] at h
    cases h
    exact ⟨hc.1.symm, hc.2.symm⟩
  · rw [if_neg hc] at h
    cases h

/-- Counterexample to claim C8 as stated: student 7 has a pre-existing
non-present record with marked_at 50 (written by a failed location
attempt); after the backfill the record for this enrolled student still
has marked_at 50, not the null marked_at the claim requires. -/
theorem backfill_c8_counterexample :
    mark_unmarked_students_as_absent 1 [7] exAbsentDB 1 7 = some exAbsentRec
    ∧ exAbsentRec.isPresent = false
    ∧ exAbsentRec.status = AttStatus.absent
    ∧ exAbsentRec.markedAt = some 50 := by decide

/-- Claim C8 as amended: the backfill gives every enrolled student of
the session the pointwise backfill effect and touches no other key;
that effect never overwrites a present record, demotes a non-present
record to absent and not present while keeping its marked_at as it
was, and creates missing records as absent, not present and with null
marked_at; and the backfill is idempotent. -/
theorem backfill_c8 (sid : Nat) (E : List Nat) (db : AttDB) (stid : Nat)
    (x y : Nat) (a b : Attendance)
    (hw : WFdb db) (he : stid ∈ E) (hk : ¬ (x = sid ∧ y ∈ E))
    (hpa : a.isPresent = true) (hpb : b.isPresent = false) :
    mark_unmarked_students_as_absent sid E db sid stid
      = backfill_result sid stid (db sid stid)
    ∧ mark_unmarked_students_as_absent sid E db x y = db x y
    ∧ backfill_result sid stid (some a) = some a
    ∧ backfill_result sid stid (some b) = some (absentify b)
    ∧ (absentify b).markedAt = b.markedAt
    ∧ (absentify b).isPresent = false
    ∧ (absentify b).status = AttStatus.absent
    ∧ backfill_result sid stid none = some (freshAbsent sid stid)
    ∧ (freshAbsent sid stid).markedAt = none
    ∧ (freshAbsent sid stid).isPresent = false
    ∧ (freshAbsent sid stid).status = AttStatus.absent
    ∧ mark_unmarked_students_as_absent sid E
        (mark_unmarked_students_as_absent sid E db)
      = mark_unmarked_students_as_absent sid E db := by
  refine ⟨?_, ?_, ?_, ?_, rfl, rfl, rfl, rfl, rfl, rfl, rfl, ?_⟩
  · rw [mark_unmarked_lookup sid E db hw sid stid, if_pos ⟨rfl, he⟩]
  · rw [mark_unmarked_lookup sid E db hw x y, if_neg hk]
  · simp [backfill_result, hpa]
  · simp [backfill_result, hpb]
  · funext u v
    rw [mark_unmarked_lookup sid E (mark_unmarked_students_as_absent sid E db)
        (wf_mark_unmarked sid E db hw) u v,
      mark_unmarked_lookup sid E db hw u v]
    by_cases hc : u = sid ∧ v ∈ E
    · rw [if_pos hc, if_pos hc]
      exact backfill_result_idem sid v (db u v)
    · rw [if_neg hc, if_neg hc]

/-- Witness for the amended claim C8: the fixture absent record, with
the present fixture record and an unrelated key. -/
theorem backfill_c8_witness :
    (7 ∈ [7] ∧ ¬ ((2:Nat) = 1 ∧ (9:Nat) ∈ [7])
      ∧ exPresentRec.isPresent = true ∧ exAbsentRec.isPresent = false)
    ∧ (mark_unmarked_students_as_absent 1 [7] exAbsentDB 1 7
        = backfill_result 1 7 (exAbsentDB 1 7)
      ∧ mark_unmarked_students_as_absent 1 [7] exAbsentDB 2 9
        = exAbsentDB 2 9
      ∧ backfill_result 1 7 (some exPresentRec) = some exPresentRec
      ∧ backfill_result 1 7 (some exAbsentRec) = some (absentify exAbsentRec)
      ∧ (absentify exAbsentRec).markedAt = exAbsentRec.markedAt
      ∧ (absentify exAbsentRec).isPresent = false
      ∧ (absentify exAbsentRec).status = AttStatus.absent
      ∧ backfill_result 1 7 none = some (freshAbsent 1 7)
      ∧ (freshAbsent 1 7).markedAt = none
      ∧ (freshAbsent 1 7).isPresent = false
      ∧ (freshAbsent 1 7).status = AttStatus.absent
      ∧ mark_unmarked_students_as_absent 1 [7]
          (mark_unmarked_students_as_absent 1 [7] exAbsentDB)
        = mark_unmarked_students_as_absent 1 [7] exAbsentDB) :=
  ⟨⟨by decide, by decide, by decide, by decide⟩,
    backfill_c8 1 [7] exAbsentDB 7 2 9 exPresentRec exAbsentRec wf_exAbsentDB
      (by decide) (by decide) (by decide) (by decide)⟩

/-- The scheduler loop maps each queried session to its own fate,
independently of every other session in the batch. -/
theorem scheduler_fold_sessions (now : Int) (fails : Nat → Bool)
    (enrolledOf : Nat → List Nat) (l : List Session) (acc : SchedOutcome) :
    (l.foldl (auto_end_step now fails enrolledOf) acc).sessions
      = acc.sessions ++ l.map (sched_fate now fails) := by
  induction l generalizing acc with
  | nil => simp
  | cons s l ih =>
    rw [List.foldl_cons, ih]
    have hstep : (auto_end_step now fails enrolledOf acc s).sessions
        = acc.sessions ++ [sched_fate now fails s] := by
      unfold auto_end_step sched_fate Session.end_session
      by_cases h1 : now ≥ scheduled_end_time s
      · by_cases h2 : fails s.id = true
        · simp [h1, h2]
        · have h2f : fails s.id = false := by
            revert h2; cases fails s.id <;> simp
          by_cases h3 : s.status = SessionStatus.active
          · simp [h1, h2, h2f, h3]
          · simp [h1, h2, h2f, h3]
      · simp [h1]
    rw [hstep, List.append_assoc]
    simp

/-- Claim C9: in one scheduler pass every queried active session is
transitioned to ended (with ended_at set) exactly when
now >= started_at + scheduled_duration and its own end does not raise;
sessions not yet past due are left as they are, and a failure while
ending one session affects only that session: every other past-due
session of the batch is still processed, because the outcome is a
pointwise map over the batch. -/
theorem scheduler_c9 (now : Int) (fails : Nat → Bool)
    (enrolledOf : Nat → List Nat) (sessions : List Session) (db : AttDB) :
    (auto_end_expired_sessions now fails enrolledOf sessions db).sessions
      = (sessions.filter (fun s => s.isActive)).map (fun s =>
          if now ≥ scheduled_end_time s ∧ fails s.id = false
          then { s with status := SessionStatus.ended, endedAt := some now }
          else s) := by
  unfold auto_end_expired_sessions
  rw [scheduler_fold_sessions]
  simp only [List.nil_append]
  apply List.map_congr_left
  intro s hs
  have hact : s.isActive = true := List.of_mem_filter hs
  have h3 : s.status = SessionStatus.active := by
    simpa [Session.isActive] using hact
  unfold sched_fate
  by_cases h1 : now ≥ scheduled_end_time s ∧ fails s.id = false
  · rw [if_pos h1, if_pos h3, if_pos h1]
  · rw [if_neg h1, if_neg h1]

end AGeo
